import Mathlib

/-!
Verification of the scheduling core of the OR-tools school-timetable repository.

The development shallowly embeds two source components:
* `prepare_assignments_as_blocks` from `main.py` (block expansion), and
* `SchoolScheduler.solve` from `scheduler_engine.py` (domain generation,
  infeasibility pre-diagnosis, constraint posting and result extraction).

The CP-SAT solver itself is abstracted as a Boolean assignment `sol` over the
decision variables; `solveWith snap sol` describes the outcome of `solve` when
the solver returns the assignment `sol` (any satisfying assignment is a
possible solver output, and a non-satisfying `sol` stands for the infeasible
case).  Python dictionaries keyed by id are modelled by last-wins lookup on
the underlying record lists; dictionary key sets are modelled with `dedup`
(same key set and no duplicates; key order is irrelevant to every statement
proved here).
-/

namespace Sched

/-- A teacher record, as read by the engine (`t["id"]`, `t["name"]`,
`t.get("unavailable_slots", [])`). -/
structure Teacher where
  id : String
  name : String
  unavailable_slots : List String
deriving DecidableEq, Repr

/-- A room record; the engine reads only `r["id"]`. -/
structure Room where
  id : String
deriving DecidableEq, Repr

/-- A subject record.  `fixed_slot = none` models an absent field; Python
tests the field with truthiness (`if fixed_slot:`), so a present empty string
behaves like an absent field there. -/
structure Subject where
  id : String
  name : String
  fixed_slot : Option String
  unavailable_slots : List String
deriving DecidableEq, Repr

/-- A schedulable block, as produced by `prepare_assignments_as_blocks` and
consumed by `solve`.  `subject_id` is read with `.get` in the engine, hence
optional. -/
structure Block where
  block_id : String
  teacher_id : String
  subject_id : Option String
  year_id : String
  subject_name : String
  year_name : String
  duration : Int
deriving DecidableEq, Repr

/-- The `config` document; every field is read with `.get` and a default. -/
structure Config where
  days : Option (List String)
  periods_per_day : Option Nat
  max_block_duration : Option Int
deriving DecidableEq, Repr

/-- The input snapshot handed to `SchoolScheduler.__init__` (the `data`
dict): `blocks` defaults to `[]`, the other keys are accessed directly. -/
structure Snapshot where
  blocks : List Block
  teachers : List Teacher
  rooms : List Room
  subjects : List Subject
  config : Config
deriving Repr

/-- A grid slot (`{"id": f"{d}_{p}", "day": d, "period": p}`); the id is
recomputed by `slotId`. -/
structure Slot where
  day : String
  period : Nat
deriving DecidableEq, Repr

/-- The slot identifier string `"{day}_{period}"`. -/
def slotId (d : String) (p : Nat) : String := d ++ "_" ++ toString p

/-- `self.days = config.get("days", ["Mon", ..., "Fri"])`. -/
def daysOf (cfg : Config) : List String :=
  cfg.days.getD ["Mon", "Tue", "Wed", "Thu", "Fri"]

/-- `self.periods = config.get("periods_per_day", 8)`. -/
def periodsOf (cfg : Config) : Nat := cfg.periods_per_day.getD 8

/-- The slot grid built in `__init__`: for each day, periods `1..periods`. -/
def slotsOf (snap : Snapshot) : List Slot :=
  (daysOf snap.config).flatMap fun d =>
    (List.range (periodsOf snap.config)).map fun i => ⟨d, i + 1⟩

/-- The list of grid slot identifiers. -/
def slotIdsOf (snap : Snapshot) : List String :=
  (slotsOf snap).map fun sl => slotId sl.day sl.period

/-- `self.teachers.get(t_id)`: a dict comprehension keyed by id keeps the
last record for a duplicated id. -/
def teacherDict (snap : Snapshot) (tid : String) : Option Teacher :=
  snap.teachers.reverse.find? fun t => t.id == tid

/-- `self.subjects.get(s_id)` where `s_id` may be `None`. -/
def subjectDict (snap : Snapshot) : Option String → Option Subject
  | some sid => snap.subjects.reverse.find? fun s => s.id == sid
  | none => none

/-- The key set of the rooms dict, i.e. `allowed_rooms` (also the key set of
`room_usage`). -/
def roomIds (snap : Snapshot) : List String :=
  (snap.rooms.map Room.id).dedup

/-- The key set of the teachers dict (also the key set of `teacher_usage`). -/
def teacherIds (snap : Snapshot) : List String :=
  (snap.teachers.map Teacher.id).dedup

/-- Python truthiness of the optional string field `fixed_slot`. -/
def truthyStr : Option String → Bool
  | some s => !(s == "")
  | none => false

/-- `subject_obj.get("fixed_slot") if subject_obj else None` for a block. -/
def fixedSlotOf (snap : Snapshot) (b : Block) : Option String :=
  match subjectDict snap b.subject_id with
  | some s => s.fixed_slot
  | none => none

/-- The candidate start slots that pass the day-boundary check
(`s["period"] + duration - 1 <= self.periods`). -/
def boundaryStarts (snap : Snapshot) (b : Block) : List String :=
  ((slotsOf snap).filter fun sl =>
      decide ((sl.period : Int) + b.duration - 1 ≤ (periodsOf snap.config : Int))).map
    fun sl => slotId sl.day sl.period

/-- `valid_starts[b["block_id"]]`: the singleton fixed slot when the subject
is pinned (truthy `fixed_slot`), otherwise the boundary-checked grid. -/
def validStarts (snap : Snapshot) (b : Block) : List String :=
  match fixedSlotOf snap b with
  | some f => if f = "" then boundaryStarts snap b else [f]
  | none => boundaryStarts snap b

/-- `next(sl for sl in self.slots if sl["id"] == start_s_id)`: the first grid
slot whose identifier matches, if any. -/
def findSlot (snap : Snapshot) (sid : String) : Option Slot :=
  (slotsOf snap).find? fun sl => slotId sl.day sl.period == sid

/-- The identifiers occupied by a block of the given duration starting at a
slot: `f"{day}_{period + k}"` for `k in range(duration)`. -/
def occupiedIds (sl : Slot) (d : Int) : List String :=
  (List.range d.toNat).map fun k => slotId sl.day (sl.period + k)

/-- The per-candidate availability check of `solve` for a start identifier:
the candidate is skipped when the identifier is not in the grid, the
teacher's unavailability is always tested, and the subject's unavailability
is tested only when the subject is not pinned. -/
def isAvailable (snap : Snapshot) (b : Block) (sid : String) : Bool :=
  match findSlot snap sid with
  | none => false
  | some sl =>
    let occ := occupiedIds sl b.duration
    let tOK : Bool :=
      match teacherDict snap b.teacher_id with
      | some t => !(occ.any fun o => t.unavailable_slots.contains o)
      | none => true
    let sOK : Bool :=
      match subjectDict snap b.subject_id with
      | some s =>
        if truthyStr s.fixed_slot then true
        else !(occ.any fun o => s.unavailable_slots.contains o)
      | none => true
    tOK && sOK

/-- A decision-variable key `(b_id, r_id, start_s_id)`. -/
abbrev Var := String × String × String

/-- The admitted `(block_id, room, start)` triples for one block, with the
multiplicity `possible_slots_count` counts them. -/
def blockVars (snap : Snapshot) (b : Block) : List Var :=
  (roomIds snap).flatMap fun r =>
    (validStarts snap b).filterMap fun sid =>
      if isAvailable snap b sid then some (b.block_id, r, sid) else none

/-- The key set of the dict `x` of decision variables. -/
def allVars (snap : Snapshot) : List Var :=
  (snap.blocks.flatMap (blockVars snap)).dedup

/-- A placement record appended to `assignments` on success. -/
structure Placement where
  slot_id : String
  duration : Int
  subject_name : String
  teacher_id : String
  room_id : String
  year : String
  block_id : String
deriving DecidableEq, Repr

/-- The outcome of one call to `solve`: a returned success dict, a returned
failure dict, or a Python exception escaping the call. -/
inductive Outcome where
  | success (data : List Placement)
  | failure (error : String)
  | thrown (exn : String)
deriving DecidableEq, Repr

/-- The shared prefix of the empty-domain diagnostics. -/
def baseMsg (b : Block) : String :=
  "IMPOSSIBLE REQUEST: '" ++ b.subject_name ++ "' (" ++ toString b.duration ++
    " hrs) has 0 valid slots."

/-- The pinned-but-blocked diagnostic variant. -/
def forcedMsg (b : Block) (f : String) : String :=
  baseMsg b ++ " It is FORCED to " ++ f ++ ", but the Teacher/Room is blocked there."

/-- The generic over-blocked diagnostic variant, naming the teacher. -/
def genericMsg (b : Block) (tname : String) : String :=
  baseMsg b ++ " Teacher " ++ tname ++
    " might be blocked too heavily, or no chunk of " ++ toString b.duration ++
    " hours is free."

/-- The empty-domain diagnosis of `solve`.  When the block is not pinned the
source evaluates `teacher_obj.get('name')` without a `None` guard, so a
non-resolving `teacher_id` raises an `AttributeError` there. -/
def diagnose (snap : Snapshot) (b : Block) : Outcome :=
  if truthyStr (fixedSlotOf snap b) then
    .failure (forcedMsg b ((fixedSlotOf snap b).getD ""))
  else
    match teacherDict snap b.teacher_id with
    | some t => .failure (genericMsg b t.name)
    | none => .thrown "AttributeError: 'NoneType' object has no attribute 'get'"

/-- The per-block scan of the variable-creation loop: each iteration first
aborts when the rooms dict is empty, then aborts with `diagnose` when the
block admits no `(room, start)` pair. -/
def checkBlocks (snap : Snapshot) : List Block → Except Outcome Unit
  | [] => .ok ()
  | b :: rest =>
    if (roomIds snap).isEmpty then
      .error (.failure "No rooms defined in database.")
    else if (blockVars snap b).isEmpty then
      .error (diagnose snap b)
    else
      checkBlocks snap rest

/-- Everything `solve` does before handing the model to the solver: either an
early return (or exception), or the decision-variable keys. -/
def preSolve (snap : Snapshot) : Except Outcome (List Var) :=
  match checkBlocks snap snap.blocks with
  | .error o => .error o
  | .ok _ => .ok (allVars snap)

/-- `next(blk for blk in self.blocks if blk["block_id"] == b_id)`: the first
block with the given id.  For every generated variable key the search
succeeds. -/
def blockOf (snap : Snapshot) (bid : String) : Option Block :=
  snap.blocks.find? fun blk => blk.block_id == bid

/-- The occupied-identifier list the constraint builder and the extractor
associate with a variable key (both resolve the block and the start slot by
first match). -/
def varOcc (snap : Snapshot) (v : Var) : List String :=
  match blockOf snap v.1, findSlot snap v.2.2 with
  | some b, some sl => occupiedIds sl b.duration
  | _, _ => []

/-- Whether the block resolved for a variable key carries the given
teacher id. -/
def usesTeacher (snap : Snapshot) (tid : String) (v : Var) : Bool :=
  match blockOf snap v.1 with
  | some b => b.teacher_id == tid
  | none => false

/-- Whether the block resolved for a variable key carries the given
year id. -/
def usesYear (snap : Snapshot) (yid : String) (v : Var) : Bool :=
  match blockOf snap v.1 with
  | some b => b.year_id == yid
  | none => false

/-- The key set of `year_usage`: the year ids of the blocks of the variable
keys. -/
def yearKeys (snap : Snapshot) (vars : List Var) : List String :=
  (vars.filterMap fun v => (blockOf snap v.1).map Block.year_id).dedup

/-- The exactly-one constraints: for each block, exactly one of its variables
is true. -/
def exactlyOneB (snap : Snapshot) (vars : List Var) (sol : Var → Bool) : Bool :=
  snap.blocks.all fun b =>
    vars.countP (fun v => v.1 == b.block_id && sol v) == 1

/-- The room-exclusivity constraints: for each rooms-dict key and grid slot,
at most one true variable covers the slot in that room. -/
def roomExclB (snap : Snapshot) (vars : List Var) (sol : Var → Bool) : Bool :=
  (roomIds snap).all fun r =>
    (slotIdsOf snap).all fun t =>
      vars.countP (fun v => sol v && v.2.1 == r && (varOcc snap v).contains t) ≤ 1

/-- The teacher-exclusivity constraints: posted only for teachers-dict keys
(`if t_id in teacher_usage`). -/
def teacherExclB (snap : Snapshot) (vars : List Var) (sol : Var → Bool) : Bool :=
  (teacherIds snap).all fun tid =>
    (slotIdsOf snap).all fun t =>
      vars.countP (fun v => sol v && usesTeacher snap tid v && (varOcc snap v).contains t) ≤ 1

/-- The cohort-exclusivity constraints, posted for every year id occurring in
the variable keys. -/
def yearExclB (snap : Snapshot) (vars : List Var) (sol : Var → Bool) : Bool :=
  (yearKeys snap vars).all fun yid =>
    (slotIdsOf snap).all fun t =>
      vars.countP (fun v => sol v && usesYear snap yid v && (varOcc snap v).contains t) ≤ 1

/-- Satisfaction of every posted constraint by a Boolean assignment. -/
def satisfiesB (snap : Snapshot) (vars : List Var) (sol : Var → Bool) : Bool :=
  exactlyOneB snap vars sol && roomExclB snap vars sol &&
    teacherExclB snap vars sol && yearExclB snap vars sol

/-- The placement dict built from a true variable key.  The block search
succeeds for every generated key, so the `none` case is unreachable in
`solve`. -/
def mkPlacement (snap : Snapshot) (v : Var) : Option Placement :=
  (blockOf snap v.1).map fun b =>
    { slot_id := v.2.2
      duration := b.duration
      subject_name := b.subject_name
      teacher_id := b.teacher_id
      room_id := v.2.1
      year := b.year_name
      block_id := v.1 }

/-- The success data: one placement per true variable key. -/
def extractPlacements (snap : Snapshot) (vars : List Var) (sol : Var → Bool) :
    List Placement :=
  (vars.filter fun v => sol v).filterMap (mkPlacement snap)

/-- `SchoolScheduler.solve` with the CP solver abstracted by the assignment
`sol` it reports: an early return or exception from the pre-solve phase,
otherwise success exactly when `sol` satisfies the posted constraints, and
the generic infeasibility message otherwise. -/
def solveWith (snap : Snapshot) (sol : Var → Bool) : Outcome :=
  match preSolve snap with
  | .error o => o
  | .ok vars =>
    if satisfiesB snap vars sol then .success (extractPlacements snap vars sol)
    else
      .failure "Mathematical Conflict: Too many overlapping classes (Teachers/Rooms/Years) at the same time."

/-- The slot-identifier set a placement occupies, resolving its start slot in
the grid by first match exactly as the engine does. -/
def placeOcc (snap : Snapshot) (p : Placement) : List String :=
  match findSlot snap p.slot_id with
  | some sl => occupiedIds sl p.duration
  | none => []

/-! ## Block expansion (`prepare_assignments_as_blocks`, `main.py`) -/

/-- An academic-year (cohort) record, read for its display name. -/
structure Year where
  id : String
  name : String
deriving DecidableEq, Repr

/-- An assignment record: `id` and `sks` are read with `.get`, the foreign
keys directly. -/
structure Assignment where
  id : Option String
  sks : Option Int
  subject_id : String
  teacher_id : String
  year_id : String
deriving DecidableEq, Repr

/-- How Python renders an optional string into an f-string (`None` when the
field is absent). -/
def pyStr : Option String → String
  | some s => s
  | none => "None"

/-- The chunk the loop takes: `max_block` if `remaining >= max_block`, else
`remaining`. -/
def takeChunk (maxb remaining : Int) : Int :=
  if remaining ≥ maxb then maxb else remaining

/-- The `while remaining_sks > 0` loop of `prepare_assignments_as_blocks`,
emitting one block per chunk with identifier `"{assign_id}_p{k}"`.  When the
chunk is non-positive (possible only for `max_block <= 0`) the Python loop
never terminates; the recursion is cut there and no claim depends on that
case. -/
def expandLoop (maxb : Int) (assignId tid sid yid sname yname : String)
    (remaining : Int) (k : Nat) : List Block :=
  if 0 < remaining then
    if 0 < takeChunk maxb remaining then
      { block_id := assignId ++ "_p" ++ toString k
        teacher_id := tid
        subject_id := some sid
        year_id := yid
        subject_name := sname
        year_name := yname
        duration := takeChunk maxb remaining } ::
        expandLoop maxb assignId tid sid yid sname yname
          (remaining - takeChunk maxb remaining) (k + 1)
    else []
  else []
termination_by remaining.toNat
decreasing_by
  simp only [takeChunk] at *
  split at * <;> omega

/-- `subj_map.get(s_id, {}).get("name", "Unknown Subject")`. -/
def subjectNameOf (subjects : List Subject) (sid : String) : String :=
  match subjects.reverse.find? (fun s => s.id == sid) with
  | some s => s.name
  | none => "Unknown Subject"

/-- `year_map.get(y_id, {}).get("name", "Unknown Year")`. -/
def yearNameOf (years : List Year) (yid : String) : String :=
  match years.reverse.find? (fun y => y.id == yid) with
  | some y => y.name
  | none => "Unknown Year"

/-- `prepare_assignments_as_blocks` from `main.py`: splits each assignment's
workload `int(assign.get("sks", 2))` greedily into blocks of length at most
`config.get("max_block_duration", 3)`. -/
def prepare_assignments_as_blocks (assignments : List Assignment)
    (subjects : List Subject) (years : List Year) (config : Config) : List Block :=
  let maxb := config.max_block_duration.getD 3
  assignments.flatMap fun a =>
    expandLoop maxb (pyStr a.id) a.teacher_id a.subject_id a.year_id
      (subjectNameOf subjects a.subject_id) (yearNameOf years a.year_id)
      (a.sks.getD 2) 1

/-- Modelled from the spec: the greedy chunk list, "emit blocks of length
`min(max_block, remaining)` until `remaining == 0`", cut at a non-positive
chunk exactly like `expandLoop`. -/
def greedyChunks (maxb : Int) (remaining : Int) : List Int :=
  if 0 < remaining then
    if 0 < min maxb remaining then
      min maxb remaining :: greedyChunks maxb (remaining - min maxb remaining)
    else []
  else []
termination_by remaining.toNat
decreasing_by omega

/-! ## Lemmas on block expansion -/

theorem takeChunk_eq_min (maxb r : Int) : takeChunk maxb r = min maxb r := by
  simp only [takeChunk, min_def, ge_iff_le]

theorem expandLoop_durations (maxb : Int) (aid tid sid yid sname yname : String)
    (r : Int) (k : Nat) :
    (expandLoop maxb aid tid sid yid sname yname r k).map Block.duration =
      greedyChunks maxb r := by
  rw [expandLoop.eq_def, greedyChunks.eq_def, takeChunk_eq_min]
  split
  · split
    · simp only [List.map_cons]
      rw [expandLoop_durations maxb aid tid sid yid sname yname
        (r - min maxb r) (k + 1)]
    · simp
  · simp
termination_by r.toNat
decreasing_by omega

theorem greedyChunks_sum (maxb r : Int) (hmb : 1 ≤ maxb) (hr : 0 ≤ r) :
    (greedyChunks maxb r).sum = r := by
  rw [greedyChunks.eq_def]
  split
  · split
    · rw [List.sum_cons, greedyChunks_sum maxb (r - min maxb r) hmb (by omega)]
      omega
    · omega
  · simpa using by omega
termination_by r.toNat
decreasing_by omega

theorem greedyChunks_bounds (maxb r : Int) (hmb : 1 ≤ maxb) :
    ∀ d ∈ greedyChunks maxb r, 1 ≤ d ∧ d ≤ maxb := by
  rw [greedyChunks.eq_def]
  split
  · split
    · intro d hd
      rcases List.mem_cons.1 hd with h | h
      · omega
      · exact greedyChunks_bounds maxb (r - min maxb r) hmb d h
    · intro d hd; simp at hd
  · intro d hd; simp at hd
termination_by r.toNat
decreasing_by omega

theorem greedyChunks_ne_nil (maxb r : Int) (hmb : 1 ≤ maxb) (hr : 1 ≤ r) :
    greedyChunks maxb r ≠ [] := by
  rw [greedyChunks.eq_def]
  have h1 : 0 < r := by omega
  have h2 : 0 < min maxb r := by omega
  simp [h1, h2]

theorem expandLoop_ids_map (maxb : Int) (aid tid sid yid sname yname : String)
    (r : Int) (k : Nat) :
    (expandLoop maxb aid tid sid yid sname yname r k).map Block.block_id =
      (List.range (greedyChunks maxb r).length).map
        (fun i => aid ++ "_p" ++ toString (k + i)) := by
  rw [expandLoop.eq_def, greedyChunks.eq_def, takeChunk_eq_min]
  split
  · split
    · simp only [List.map_cons, List.length_cons, List.range_succ_eq_map,
        List.map_map]
      rw [expandLoop_ids_map maxb aid tid sid yid sname yname
        (r - min maxb r) (k + 1)]
      apply congrArg₂ List.cons
      · simp
      · apply List.map_congr_left
        intro i _
        simp only [Function.comp_apply, Nat.succ_eq_add_one]
        congr 2
        omega
    · simp
  · simp
termination_by r.toNat
decreasing_by omega

theorem expandLoop_nonpos (maxb : Int) (aid tid sid yid sname yname : String)
    (r : Int) (k : Nat) (hr : r ≤ 0) :
    expandLoop maxb aid tid sid yid sname yname r k = [] := by
  rw [expandLoop.eq_def]
  split
  · omega
  · rfl

theorem prepare_singleton (a : Assignment) (subjects : List Subject)
    (years : List Year) (config : Config) :
    prepare_assignments_as_blocks [a] subjects years config =
      expandLoop (config.max_block_duration.getD 3) (pyStr a.id) a.teacher_id
        a.subject_id a.year_id (subjectNameOf subjects a.subject_id)
        (yearNameOf years a.year_id) (a.sks.getD 2) 1 := by
  simp [prepare_assignments_as_blocks]

/-- Claim C3: for an assignment with workload `w >= 1` and `max_block >= 1`,
`prepare_assignments_as_blocks` emits exactly the greedy chunking of `w` into
pieces `min(max_block, remaining)`, with block ids `"{assignment_id}_p{k}"`
for `k = 1, 2, ...`; the durations sum to `w` and each lies in
`[1, max_block]`. -/
theorem C3_block_expansion (a : Assignment) (subjects : List Subject)
    (years : List Year) (config : Config) (aid : String) (w maxb : Int)
    (bs : List Block)
    (hid : a.id = some aid) (hw : a.sks = some w) (h1 : 1 ≤ w)
    (hm : config.max_block_duration.getD 3 = maxb) (hmb : 1 ≤ maxb)
    (hbs : bs = prepare_assignments_as_blocks [a] subjects years config) :
    bs.map Block.duration = greedyChunks maxb w ∧
    (bs.map Block.duration).sum = w ∧
    (∀ d ∈ bs.map Block.duration, 1 ≤ d ∧ d ≤ maxb) ∧
    bs.map Block.block_id =
      (List.range bs.length).map (fun i => aid ++ "_p" ++ toString (i + 1)) := by
  subst hbs
  rw [prepare_singleton, hm, hw, hid]
  simp only [pyStr, Option.getD_some]
  have hdur := expandLoop_durations maxb aid a.teacher_id a.subject_id a.year_id
    (subjectNameOf subjects a.subject_id) (yearNameOf years a.year_id) w 1
  have hlen : (expandLoop maxb aid a.teacher_id a.subject_id a.year_id
      (subjectNameOf subjects a.subject_id) (yearNameOf years a.year_id) w 1).length =
      (greedyChunks maxb w).length := by
    rw [← hdur, List.length_map]
  refine ⟨hdur, ?_, ?_, ?_⟩
  · rw [hdur]
    exact greedyChunks_sum maxb w hmb (by omega)
  · rw [hdur]
    exact greedyChunks_bounds maxb w hmb
  · rw [expandLoop_ids_map maxb aid a.teacher_id a.subject_id a.year_id
      (subjectNameOf subjects a.subject_id) (yearNameOf years a.year_id) w 1, hlen]
    apply List.map_congr_left
    intro i _
    congr 2
    omega

/-- Claim C10 (implicit): an assignment lacking the `sks` field is treated as
workload 2 — it is neither dropped nor an error: with `max_block >= 1` its
emitted blocks are nonempty and their durations sum to 2 — while an
assignment carrying `sks <= 0` yields no blocks at all. -/
theorem C10_default_sks (a a' : Assignment) (subjects : List Subject)
    (years : List Year) (config : Config) (maxb w : Int)
    (hs : a.sks = none) (hm : config.max_block_duration.getD 3 = maxb)
    (hmb : 1 ≤ maxb) (hs' : a'.sks = some w) (hw' : w ≤ 0) :
    (prepare_assignments_as_blocks [a] subjects years config ≠ [] ∧
      ((prepare_assignments_as_blocks [a] subjects years config).map
        Block.duration).sum = 2) ∧
    prepare_assignments_as_blocks [a'] subjects years config = [] := by
  constructor
  · rw [prepare_singleton, hm, hs]
    simp only [Option.getD_none]
    constructor
    · intro hnil
      have hd := expandLoop_durations maxb (pyStr a.id) a.teacher_id a.subject_id
        a.year_id (subjectNameOf subjects a.subject_id) (yearNameOf years a.year_id) 2 1
      rw [hnil] at hd
      exact greedyChunks_ne_nil maxb 2 hmb (by omega) hd.symm
    · rw [expandLoop_durations]
      exact greedyChunks_sum maxb 2 hmb (by omega)
  · rw [prepare_singleton, hm, hs']
    simp only [Option.getD_some]
    exact expandLoop_nonpos maxb (pyStr a'.id) a'.teacher_id a'.subject_id
      a'.year_id (subjectNameOf subjects a'.subject_id)
      (yearNameOf years a'.year_id) w 1 hw'

/-! ## Concrete instances used by counterexamples and witnesses -/

/-- A one-day config with the given number of periods and `max_block = 3`. -/
def cfg1 (p : Nat) : Config :=
  { days := some ["Mon"], periods_per_day := some p, max_block_duration := some 3 }

/-- A feasible one-block snapshot: one room, one free teacher, one unpinned
subject, a single one-period block. -/
def okSnap : Snapshot :=
  { blocks := [⟨"B1", "T1", some "S1", "Y1", "Math", "Year 1", 1⟩]
    teachers := [⟨"T1", "Alice", []⟩]
    rooms := [⟨"R1"⟩]
    subjects := [⟨"S1", "Math", none, []⟩]
    config := cfg1 2 }

def okSol : Var → Bool := fun v => v == ("B1", "R1", "Mon_1")

/-- Two blocks sharing a teacher id that resolves to no teacher record, two
rooms, two cohorts, a one-slot grid. -/
def ghostSnap : Snapshot :=
  { blocks := [⟨"B1", "Tghost", none, "Y1", "Sub", "Y1n", 1⟩,
               ⟨"B2", "Tghost", none, "Y2", "Sub", "Y2n", 1⟩]
    teachers := []
    rooms := [⟨"R1"⟩, ⟨"R2"⟩]
    subjects := []
    config := cfg1 1 }

def ghostSol : Var → Bool := fun v =>
  v == ("B1", "R1", "Mon_1") || v == ("B2", "R2", "Mon_1")

/-- A two-period day with a two-period block pinned to the last period. -/
def pinOverSnap : Snapshot :=
  { blocks := [⟨"B1", "T1", some "S1", "Y1", "Math", "Y1n", 2⟩]
    teachers := []
    rooms := [⟨"R1"⟩]
    subjects := [⟨"S1", "Math", some "Mon_2", []⟩]
    config := cfg1 2 }

def pinOverSol : Var → Bool := fun v => v == ("B1", "R1", "Mon_2")

/-- A block whose domain is empty (duration 2 on a one-period day) and whose
teacher id resolves to no record. -/
def noTeacherSnap : Snapshot :=
  { blocks := [⟨"B1", "T9", none, "Y1", "Math", "Y1n", 2⟩]
    teachers := []
    rooms := [⟨"R1"⟩]
    subjects := []
    config := cfg1 1 }

/-- A block with an unresolvable teacher id whose domain empties through the
subject's unavailability. -/
def noTeacherSubjSnap : Snapshot :=
  { blocks := [⟨"B1", "T9", some "S9", "Y1", "Hist", "Y1n", 1⟩]
    teachers := []
    rooms := [⟨"R1"⟩]
    subjects := [⟨"S9", "Hist", none, ["Mon_1"]⟩]
    config := cfg1 1 }

/-- A snapshot with no rooms and no blocks. -/
def emptySnap : Snapshot :=
  { blocks := [], teachers := [], rooms := [], subjects := [], config := cfg1 1 }

/-- A snapshot with one block and no rooms. -/
def noRoomSnap : Snapshot :=
  { blocks := [⟨"B1", "T1", none, "Y1", "Math", "Y1n", 1⟩]
    teachers := []
    rooms := []
    subjects := []
    config := cfg1 1 }

/-- A subject carrying `fixed_slot` with the falsy value `""`. -/
def emptyPinSnap : Snapshot :=
  { blocks := [⟨"B1", "T1", some "S1", "Y1", "Math", "Y1n", 1⟩]
    teachers := []
    rooms := [⟨"R1"⟩]
    subjects := [⟨"S1", "Math", some "", []⟩]
    config := cfg1 1 }

/-- A feasible snapshot whose single block is pinned to `"Mon_2"`. -/
def pinOkSnap : Snapshot :=
  { blocks := [⟨"B1", "T1", some "S1", "Y1", "Math", "Y1n", 1⟩]
    teachers := [⟨"T1", "Alice", []⟩]
    rooms := [⟨"R1"⟩]
    subjects := [⟨"S1", "Math", some "Mon_2", []⟩]
    config := cfg1 2 }

def pinOkSol : Var → Bool := fun v => v == ("B1", "R1", "Mon_2")

/-- A pinned block whose teacher is blocked at the pinned slot (empty
domain, pinned diagnostic). -/
def pinClashSnap : Snapshot :=
  { blocks := [⟨"B1", "T1", some "S1", "Y1", "Math", "Y1n", 1⟩]
    teachers := [⟨"T1", "Alan", ["Mon_2"]⟩]
    rooms := [⟨"R1"⟩]
    subjects := [⟨"S1", "Math", some "Mon_2", []⟩]
    config := cfg1 2 }

/-- An unpinned block whose (resolving) teacher is blocked everywhere (empty
domain, generic diagnostic). -/
def overBlockSnap : Snapshot :=
  { blocks := [⟨"B1", "T1", none, "Y1", "Math", "Y1n", 1⟩]
    teachers := [⟨"T1", "Alan", ["Mon_1"]⟩]
    rooms := [⟨"R1"⟩]
    subjects := []
    config := cfg1 1 }

/-- Two one-period blocks of the same teacher and two cohorts on a
two-period day (the spec's scenario D shape). -/
def twoSnap : Snapshot :=
  { blocks := [⟨"B1", "T1", some "S1", "C1", "Math", "C1n", 1⟩,
               ⟨"B2", "T1", some "S1", "C2", "Math", "C2n", 1⟩]
    teachers := [⟨"T1", "Alice", []⟩]
    rooms := [⟨"R1"⟩]
    subjects := [⟨"S1", "Math", none, []⟩]
    config := cfg1 2 }

def twoSol : Var → Bool := fun v =>
  v == ("B1", "R1", "Mon_1") || v == ("B2", "R1", "Mon_2")

/-! ## General helper lemmas -/

theorem contains_true_iff {l : List String} {a : String} :
    l.contains a = true ↔ a ∈ l := List.elem_iff

theorem two_le_countP {α : Type} [DecidableEq α] (l : List α) (p : α → Bool) (a b : α)
    (ha : a ∈ l) (hb : b ∈ l) (hne : a ≠ b)
    (hpa : p a = true) (hpb : p b = true) : 2 ≤ l.countP p := by
  rw [List.countP_eq_length_filter]
  have ha' : a ∈ l.filter p := List.mem_filter.2 ⟨ha, hpa⟩
  have hb' : b ∈ l.filter p := List.mem_filter.2 ⟨hb, hpb⟩
  have hbe : b ∈ (l.filter p).erase a := (List.mem_erase_of_ne (Ne.symm hne)).2 hb'
  have h3 : 0 < ((l.filter p).erase a).length :=
    List.length_pos.2 (List.ne_nil_of_mem hbe)
  have h2 := List.length_erase_of_mem ha'
  omega

/-! ## Structure of the generated variables -/

theorem mem_blockVars {snap : Snapshot} {b : Block} {v : Var} :
    v ∈ blockVars snap b ↔
      v.1 = b.block_id ∧ v.2.1 ∈ roomIds snap ∧ v.2.2 ∈ validStarts snap b ∧
        isAvailable snap b v.2.2 = true := by
  simp only [blockVars, List.mem_flatMap, List.mem_filterMap]
  constructor
  · rintro ⟨r, hr, sid, hsid, hv⟩
    by_cases ha : isAvailable snap b sid = true
    · rw [if_pos ha] at hv
      cases hv
      exact ⟨rfl, hr, hsid, ha⟩
    · rw [if_neg ha] at hv
      cases hv
  · rintro ⟨h1, h2, h3, h4⟩
    refine ⟨v.2.1, h2, v.2.2, h3, ?_⟩
    rw [if_pos h4, ← h1]

theorem mem_allVars {snap : Snapshot} {v : Var} :
    v ∈ allVars snap ↔ ∃ b ∈ snap.blocks, v ∈ blockVars snap b := by
  simp only [allVars, List.mem_dedup, List.mem_flatMap]

/-! ## Dictionary lookups -/

theorem teacherDict_isSome_mem {snap : Snapshot} {tid : String}
    (h : (teacherDict snap tid).isSome = true) : tid ∈ teacherIds snap := by
  rw [Option.isSome_iff_exists] at h
  obtain ⟨t, ht⟩ := h
  have hmem : t ∈ snap.teachers := by
    have := List.mem_of_find?_eq_some ht
    exact List.mem_reverse.1 this
  have hid : t.id = tid := by
    have := List.find?_some ht
    exact beq_iff_eq.1 this
  rw [teacherIds, List.mem_dedup]
  exact hid ▸ List.mem_map_of_mem Teacher.id hmem

theorem find?_block_id_self {l : List Block} {b : Block}
    (hnd : (l.map Block.block_id).Nodup) (hb : b ∈ l) :
    l.find? (fun blk => blk.block_id == b.block_id) = some b := by
  induction l with
  | nil => cases hb
  | cons hd tl ih =>
    rcases List.mem_cons.1 hb with h | h
    · subst h
      simp [List.find?]
    · have hne : hd.block_id ≠ b.block_id := by
        simp only [List.map_cons, List.nodup_cons, List.mem_map] at hnd
        intro he
        exact hnd.1 ⟨b, h, he.symm⟩
      have hnd' : (tl.map Block.block_id).Nodup := by
        simp only [List.map_cons, List.nodup_cons] at hnd
        exact hnd.2
      rw [List.find?]
      have hbe : (hd.block_id == b.block_id) = false := by
        simp [hne]
      rw [hbe]
      exact ih hnd' h

theorem blockOf_self {snap : Snapshot} {b : Block}
    (hnd : (snap.blocks.map Block.block_id).Nodup) (hb : b ∈ snap.blocks) :
    blockOf snap b.block_id = some b :=
  find?_block_id_self hnd hb

/-! ## Pre-solve structure -/

theorem diagnose_ne_success (snap : Snapshot) (b : Block) (d : List Placement) :
    diagnose snap b ≠ .success d := by
  unfold diagnose
  split
  · intro h; cases h
  · split
    · intro h; cases h
    · intro h; cases h

theorem checkBlocks_error_ne_success {snap : Snapshot} :
    ∀ {bs : List Block} {o : Outcome} {d : List Placement},
      checkBlocks snap bs = .error o → o ≠ .success d := by
  intro bs
  induction bs with
  | nil => intro o d h; cases h
  | cons hd tl ih =>
    intro o d h
    rw [checkBlocks] at h
    split at h
    · cases h
      intro he; cases he
    · split at h
      · cases h
        exact diagnose_ne_success snap hd d
      · exact ih h

theorem solveWith_success {snap : Snapshot} {sol : Var → Bool} {data : List Placement}
    (h : solveWith snap sol = .success data) :
    satisfiesB snap (allVars snap) sol = true ∧
      data = extractPlacements snap (allVars snap) sol := by
  unfold solveWith preSolve at h
  cases hcb : checkBlocks snap snap.blocks with
  | error o =>
    rw [hcb] at h
    simp only at h
    exact absurd h (checkBlocks_error_ne_success hcb)
  | ok u =>
    rw [hcb] at h
    simp only at h
    by_cases hsat : satisfiesB snap (allVars snap) sol = true
    · rw [if_pos hsat] at h
      cases h
      exact ⟨hsat, rfl⟩
    · rw [if_neg hsat] at h
      cases h

/-! ## Extraction structure -/

theorem mem_extract {snap : Snapshot} {vars : List Var} {sol : Var → Bool}
    {p : Placement} (h : p ∈ extractPlacements snap vars sol) :
    ∃ v ∈ vars, sol v = true ∧ mkPlacement snap v = some p := by
  simp only [extractPlacements, List.mem_filterMap, List.mem_filter] at h
  obtain ⟨v, ⟨hv, hs⟩, hmk⟩ := h
  exact ⟨v, hv, hs, hmk⟩

theorem mkPlacement_some {snap : Snapshot} {v : Var} {p : Placement}
    (h : mkPlacement snap v = some p) :
    ∃ b, blockOf snap v.1 = some b ∧ p.slot_id = v.2.2 ∧ p.duration = b.duration ∧
      p.teacher_id = b.teacher_id ∧ p.room_id = v.2.1 ∧ p.block_id = v.1 := by
  unfold mkPlacement at h
  cases hb : blockOf snap v.1 with
  | none => rw [hb] at h; cases h
  | some b =>
    rw [hb] at h
    cases h
    exact ⟨b, rfl, rfl, rfl, rfl, rfl, rfl⟩

theorem mkPlacement_occ {snap : Snapshot} {v : Var} {p : Placement}
    (h : mkPlacement snap v = some p) : placeOcc snap p = varOcc snap v := by
  obtain ⟨b, hb, hslot, hdur, -, -, -⟩ := mkPlacement_some h
  unfold placeOcc varOcc
  rw [hslot, hb, hdur]
  cases findSlot snap v.2.2 <;> rfl

/-- Every placement of a success result arises from a generated variable of
a snapshot block; under distinct block ids that block is the one the
extractor resolves. -/
theorem placement_source {snap : Snapshot} {sol : Var → Bool} {data : List Placement}
    {p : Placement} (hnd : (snap.blocks.map Block.block_id).Nodup)
    (h : solveWith snap sol = .success data) (hp : p ∈ data) :
    ∃ b ∈ snap.blocks, blockOf snap p.block_id = some b ∧ p.block_id = b.block_id ∧
      p.duration = b.duration ∧ p.teacher_id = b.teacher_id ∧
      p.slot_id ∈ validStarts snap b ∧ isAvailable snap b p.slot_id = true ∧
      p.room_id ∈ roomIds snap := by
  obtain ⟨-, hdata⟩ := solveWith_success h
  subst hdata
  obtain ⟨v, hv, -, hmk⟩ := mem_extract hp
  obtain ⟨bf, hbf, hslot, hdur, htid, hroom, hbid⟩ := mkPlacement_some hmk
  obtain ⟨bgen, hbgen, hbv⟩ := mem_allVars.1 hv
  obtain ⟨h1, h2, h3, h4⟩ := mem_blockVars.1 hbv
  have hsame : bf = bgen := by
    have := blockOf_self hnd hbgen
    rw [← h1, hbf] at this
    exact Option.some_injective _ this
  subst hsame
  refine ⟨bf, hbgen, ?_, ?_, hdur, htid, ?_, ?_, ?_⟩
  · rw [hbid, hbf]
  · rw [hbid, h1]
  · rw [hslot]; exact h3
  · rw [hslot]; exact h4
  · rw [hroom]; exact h2

/-! ## Constraint accessors -/

theorem satisfies_exactlyOne {snap : Snapshot} {vars : List Var} {sol : Var → Bool}
    (h : satisfiesB snap vars sol = true) :
    ∀ b ∈ snap.blocks, vars.countP (fun v => v.1 == b.block_id && sol v) = 1 := by
  simp only [satisfiesB, Bool.and_eq_true, exactlyOneB, List.all_eq_true,
    beq_iff_eq] at h
  exact h.1.1.1

theorem satisfies_room {snap : Snapshot} {vars : List Var} {sol : Var → Bool}
    (h : satisfiesB snap vars sol = true) :
    ∀ r ∈ roomIds snap, ∀ t ∈ slotIdsOf snap,
      vars.countP (fun v => sol v && v.2.1 == r && (varOcc snap v).contains t) ≤ 1 := by
  simp only [satisfiesB, Bool.and_eq_true, roomExclB, List.all_eq_true,
    decide_eq_true_eq] at h
  exact h.1.1.2

theorem satisfies_teacher {snap : Snapshot} {vars : List Var} {sol : Var → Bool}
    (h : satisfiesB snap vars sol = true) :
    ∀ tid ∈ teacherIds snap, ∀ t ∈ slotIdsOf snap,
      vars.countP
        (fun v => sol v && usesTeacher snap tid v && (varOcc snap v).contains t) ≤ 1 := by
  simp only [satisfiesB, Bool.and_eq_true, teacherExclB, List.all_eq_true,
    decide_eq_true_eq] at h
  exact h.1.2

theorem satisfies_year {snap : Snapshot} {vars : List Var} {sol : Var → Bool}
    (h : satisfiesB snap vars sol = true) :
    ∀ yid ∈ yearKeys snap vars, ∀ t ∈ slotIdsOf snap,
      vars.countP
        (fun v => sol v && usesYear snap yid v && (varOcc snap v).contains t) ≤ 1 := by
  simp only [satisfiesB, Bool.and_eq_true, yearExclB, List.all_eq_true,
    decide_eq_true_eq] at h
  exact h.2

/-! ## Candidate starts and availability -/

theorem contains_false_iff {l : List String} {a : String} :
    l.contains a = false ↔ a ∉ l := by
  rw [← contains_true_iff]
  simp

theorem validStarts_not_pinned {snap : Snapshot} {b : Block}
    (h : truthyStr (fixedSlotOf snap b) = false) :
    validStarts snap b = boundaryStarts snap b := by
  unfold validStarts
  cases hf : fixedSlotOf snap b with
  | none => rfl
  | some f =>
    rw [hf] at h
    simp only [truthyStr, Bool.not_eq_false', beq_iff_eq] at h
    subst h
    simp

theorem validStarts_pinned {snap : Snapshot} {b : Block} {f : String}
    (hf : fixedSlotOf snap b = some f) (hne : f ≠ "") :
    validStarts snap b = [f] := by
  unfold validStarts
  rw [hf]
  simp [hne]

theorem mem_boundaryStarts {snap : Snapshot} {b : Block} {sid : String} :
    sid ∈ boundaryStarts snap b ↔
      ∃ sl ∈ slotsOf snap, slotId sl.day sl.period = sid ∧
        (sl.period : Int) + b.duration - 1 ≤ (periodsOf snap.config : Int) := by
  simp only [boundaryStarts, List.mem_map, List.mem_filter, decide_eq_true_eq]
  constructor
  · rintro ⟨sl, ⟨h1, h2⟩, h3⟩
    exact ⟨sl, h1, h3, h2⟩
  · rintro ⟨sl, h1, h3, h2⟩
    exact ⟨sl, ⟨h1, h2⟩, h3⟩

theorem isAvailable_eq_true {snap : Snapshot} {b : Block} {sid : String} :
    isAvailable snap b sid = true ↔
      ∃ sl, findSlot snap sid = some sl ∧
        (∀ t, teacherDict snap b.teacher_id = some t →
          ∀ o ∈ occupiedIds sl b.duration, o ∉ t.unavailable_slots) ∧
        (∀ s, subjectDict snap b.subject_id = some s → truthyStr s.fixed_slot = false →
          ∀ o ∈ occupiedIds sl b.duration, o ∉ s.unavailable_slots) := by
  unfold isAvailable
  cases hfs : findSlot snap sid with
  | none => simp
  | some sl' =>
    cases htd : teacherDict snap b.teacher_id with
    | none =>
      cases hsd : subjectDict snap b.subject_id with
      | none => simp
      | some s =>
        by_cases hts : truthyStr s.fixed_slot = true
        · simp [hts]
        · rw [Bool.not_eq_true] at hts
          simp [hts, List.any_eq_false, contains_false_iff]
    | some t =>
      cases hsd : subjectDict snap b.subject_id with
      | none => simp [List.any_eq_false, contains_false_iff]
      | some s =>
        by_cases hts : truthyStr s.fixed_slot = true
        · simp [hts, List.any_eq_false, contains_false_iff]
        · rw [Bool.not_eq_true] at hts
          simp [hts, List.any_eq_false, contains_false_iff]

/-! ## Claim theorems: pre-solve failures -/

theorem checkBlocks_find {snap : Snapshot} (hr : (roomIds snap).isEmpty = false) :
    ∀ (bs : List Block) (b : Block),
      bs.find? (fun blk => (blockVars snap blk).isEmpty) = some b →
      checkBlocks snap bs = .error (diagnose snap b) := by
  intro bs
  induction bs with
  | nil => intro b h; cases h
  | cons hd tl ih =>
    intro b h
    rw [List.find?] at h
    rw [checkBlocks, hr]
    by_cases he : (blockVars snap hd).isEmpty = true
    · rw [he] at h
      cases h
      simp [he]
    · rw [Bool.not_eq_true] at he
      rw [he] at h
      simp only [Bool.false_eq_true, if_false, he]
      exact ih b h

/-- Claim C9 (amended): with at least one block and an empty rooms list,
`solve` fails with the rooms configuration error whatever the solver would
do. -/
theorem C9_no_rooms (snap : Snapshot) (sol : Var → Bool)
    (hb : snap.blocks ≠ []) (hr : snap.rooms = []) :
    solveWith snap sol = .failure "No rooms defined in database." := by
  have hri : (roomIds snap).isEmpty = true := by
    rw [roomIds, hr]
    rfl
  cases hbs : snap.blocks with
  | nil => exact absurd hbs hb
  | cons b rest =>
    unfold solveWith preSolve
    rw [hbs, checkBlocks, hri]
    simp

/-- Claim C4 (amended): when at least one room exists and some block's
domain is empty, `solve` returns a failure before any solver involvement
(the same failure for every solver behaviour); the message is the pinned
variant iff the first empty-domain block's subject has a truthy
`fixed_slot`, and the generic variant names the teacher provided the
teacher id resolves.  (With an unresolvable teacher id and an unpinned
empty-domain block the source instead raises an `AttributeError`.) -/
theorem C4_empty_domain (snap : Snapshot) (b : Block)
    (hr : snap.rooms ≠ [])
    (hf : snap.blocks.find? (fun blk => (blockVars snap blk).isEmpty) = some b) :
    (truthyStr (fixedSlotOf snap b) = true →
      ∀ sol, solveWith snap sol =
        .failure (forcedMsg b ((fixedSlotOf snap b).getD ""))) ∧
    (truthyStr (fixedSlotOf snap b) = false →
      ∀ t, teacherDict snap b.teacher_id = some t →
        ∀ sol, solveWith snap sol = .failure (genericMsg b t.name)) := by
  have hre : (roomIds snap).isEmpty = false := by
    rw [List.isEmpty_eq_false]
    intro hd
    rw [roomIds] at hd
    exact hr (List.map_eq_nil_iff.1 ((List.dedup_eq_nil _).1 hd))
  have hcb := checkBlocks_find hre snap.blocks b hf
  have hsw : ∀ sol, solveWith snap sol = diagnose snap b := by
    intro sol
    unfold solveWith preSolve
    rw [hcb]
  constructor
  · intro hp sol
    rw [hsw, diagnose, if_pos hp]
  · intro hp t ht sol
    rw [hsw, diagnose, if_neg (by rw [hp]; exact Bool.false_ne_true), ht]

/-- Claim C6: in the per-candidate admissibility filter, the teacher's
unavailability is tested whether or not the subject is pinned, while the
subject's own unavailability is tested exactly when the subject has no
(truthy) `fixed_slot`. -/
theorem C6_subject_check (snap : Snapshot) (b : Block) (subj : Subject)
    (sid : String) (hs : subjectDict snap b.subject_id = some subj) :
    (truthyStr subj.fixed_slot = true →
      (isAvailable snap b sid = true ↔
        ∃ sl, findSlot snap sid = some sl ∧
          ∀ t, teacherDict snap b.teacher_id = some t →
            ∀ o ∈ occupiedIds sl b.duration, o ∉ t.unavailable_slots)) ∧
    (truthyStr subj.fixed_slot = false →
      (isAvailable snap b sid = true ↔
        ∃ sl, findSlot snap sid = some sl ∧
          (∀ t, teacherDict snap b.teacher_id = some t →
            ∀ o ∈ occupiedIds sl b.duration, o ∉ t.unavailable_slots) ∧
          ∀ o ∈ occupiedIds sl b.duration, o ∉ subj.unavailable_slots)) := by
  constructor
  · intro hp
    rw [isAvailable_eq_true]
    constructor
    · rintro ⟨sl, h1, h2, -⟩
      exact ⟨sl, h1, h2⟩
    · rintro ⟨sl, h1, h2⟩
      refine ⟨sl, h1, h2, ?_⟩
      intro s hsd hnp
      rw [hs] at hsd
      cases hsd
      rw [hp] at hnp
      cases hnp
  · intro hp
    rw [isAvailable_eq_true]
    constructor
    · rintro ⟨sl, h1, h2, h3⟩
      exact ⟨sl, h1, h2, h3 subj hs hp⟩
    · rintro ⟨sl, h1, h2, h3⟩
      refine ⟨sl, h1, h2, ?_⟩
      intro s hsd _
      rw [hs] at hsd
      cases hsd
      exact h3

/-- Claim C5 (amended): when a block's subject carries `fixed_slot` with a
truthy (non-empty) value `f`, the candidate start set is exactly `[f]` (no
boundary check is re-applied), and every placement of that block in a
success result starts at `f`.  (For the falsy value `""` the source falls
back to the boundary-checked grid; see the counterexample.) -/
theorem C5_pin_honoured (snap : Snapshot) (b : Block) (subj : Subject) (f : String)
    (hnd : (snap.blocks.map Block.block_id).Nodup) (hb : b ∈ snap.blocks)
    (hs : subjectDict snap b.subject_id = some subj)
    (hf : subj.fixed_slot = some f) (hne : f ≠ "") :
    validStarts snap b = [f] ∧
    ∀ sol data p, solveWith snap sol = .success data → p ∈ data →
      p.block_id = b.block_id → p.slot_id = f := by
  have hfx : fixedSlotOf snap b = some f := by
    unfold fixedSlotOf
    rw [hs]
    exact hf
  have hvs := validStarts_pinned hfx hne
  refine ⟨hvs, ?_⟩
  intro sol data p hsw hp hpb
  obtain ⟨b', hb', hbo, hbid, -, -, hslot, -, -⟩ := placement_source hnd hsw hp
  have hbb : b' = b := by
    have h1 := blockOf_self hnd hb
    rw [← hpb] at h1
    rw [hbo] at h1
    exact Option.some_injective _ h1
  subst hbb
  rw [hvs] at hslot
  simpa using hslot

/-- Claim C7: no placement of a success result occupies a slot its block's
teacher is unavailable at; a teacher id that resolves to no record
contributes no unavailability. -/
theorem C7_teacher_respected (snap : Snapshot) (sol : Var → Bool)
    (data : List Placement)
    (hnd : (snap.blocks.map Block.block_id).Nodup)
    (hsw : solveWith snap sol = .success data) :
    ∀ p ∈ data, ∀ o ∈ placeOcc snap p,
      ∀ t, teacherDict snap p.teacher_id = some t → o ∉ t.unavailable_slots := by
  intro p hp o ho t ht
  obtain ⟨b, hb, hbo, hbid, hdur, htid, hslot, hav, hroom⟩ :=
    placement_source hnd hsw hp
  obtain ⟨sl, hfs, hteach, -⟩ := isAvailable_eq_true.1 hav
  have hocc : placeOcc snap p = occupiedIds sl b.duration := by
    unfold placeOcc
    rw [hfs, hdur]
  rw [hocc] at ho
  rw [htid] at ht
  exact hteach t ht o ho

/-- Claim C2 (amended): every placement of an unpinned block in a success
result fits within its day: a grid slot carries the placement's start id and
satisfies `period + duration - 1 <= periods_per_day`.  A pinned block skips
the boundary check and can overrun the day end (see the counterexample). -/
theorem C2_within_day (snap : Snapshot) (sol : Var → Bool) (data : List Placement)
    (hnd : (snap.blocks.map Block.block_id).Nodup)
    (hsw : solveWith snap sol = .success data) :
    ∀ p ∈ data, ∀ b, blockOf snap p.block_id = some b →
      truthyStr (fixedSlotOf snap b) = false →
      ∃ sl ∈ slotsOf snap, slotId sl.day sl.period = p.slot_id ∧
        (sl.period : Int) + p.duration - 1 ≤ (periodsOf snap.config : Int) := by
  intro p hp b hbo hnp
  obtain ⟨b', hb', hbo', hbid, hdur, htid, hslot, hav, hroom⟩ :=
    placement_source hnd hsw hp
  have hbb : b' = b := by
    rw [hbo] at hbo'
    exact (Option.some_injective _ hbo').symm
  subst hbb
  rw [validStarts_not_pinned hnp] at hslot
  obtain ⟨sl, hmem, hid, hbound⟩ := mem_boundaryStarts.1 hslot
  refine ⟨sl, hmem, hid, ?_⟩
  rw [hdur]
  exact hbound

/-- Absence of clashes between two placements: at every grid slot both
occupy, their rooms differ, their (resolving) teacher ids differ, and their
blocks' cohort ids differ. -/
def noClash (snap : Snapshot) (p q : Placement) : Prop :=
  ∀ t ∈ slotIdsOf snap, t ∈ placeOcc snap p → t ∈ placeOcc snap q →
    p.room_id ≠ q.room_id ∧
    ((teacherDict snap p.teacher_id).isSome = true → p.teacher_id ≠ q.teacher_id) ∧
    (∀ bp bq, blockOf snap p.block_id = some bp → blockOf snap q.block_id = some bq →
      bp.year_id ≠ bq.year_id)

/-- Claim C1 (amended): in every success result, at every grid slot no two
placements share a room, no two placements share a teacher id that resolves
to a teacher record, and no two placements' blocks share a cohort id.  (For
a teacher id resolving to no record no exclusivity constraint is posted; see
the counterexample.) -/
theorem C1_mutual_exclusion (snap : Snapshot) (sol : Var → Bool)
    (data : List Placement) (hsw : solveWith snap sol = .success data) :
    data.Pairwise (noClash snap) := by
  obtain ⟨hsat, hdata⟩ := solveWith_success hsw
  subst hdata
  unfold extractPlacements
  apply List.pairwise_filterMap.2
  have hnd : ((allVars snap).filter (fun v => sol v)).Nodup :=
    (List.nodup_dedup _).filter _
  refine List.Pairwise.imp_of_mem ?_ hnd
  intro v w hv hw hvw
  intro p hp q hq
  rw [Option.mem_def] at hp hq
  have hvA : v ∈ allVars snap := List.mem_of_mem_filter hv
  have hwA : w ∈ allVars snap := List.mem_of_mem_filter hw
  have hvs : sol v = true := (List.mem_filter.1 hv).2
  have hws : sol w = true := (List.mem_filter.1 hw).2
  obtain ⟨bgv, hbgv, hbvv⟩ := mem_allVars.1 hvA
  obtain ⟨h1v, h2v, h3v, h4v⟩ := mem_blockVars.1 hbvv
  obtain ⟨bfv, hbfv, hslotv, hdurv, htidv, hroomv, hbidv⟩ := mkPlacement_some hp
  obtain ⟨bfw, hbfw, hslotw, hdurw, htidw, hroomw, hbidw⟩ := mkPlacement_some hq
  have hoccv := mkPlacement_occ hp
  have hoccw := mkPlacement_occ hq
  intro t ht htp htq
  rw [hoccv] at htp
  rw [hoccw] at htq
  have hcv : (varOcc snap v).contains t = true := contains_true_iff.2 htp
  have hcw : (varOcc snap w).contains t = true := contains_true_iff.2 htq
  refine ⟨?_, ?_, ?_⟩
  · intro heq
    have hcount := satisfies_room hsat v.2.1 h2v t ht
    have hv_pred :
        (sol v && v.2.1 == v.2.1 && (varOcc snap v).contains t) = true := by
      simp [hvs, hcv, htp]
    have hww : w.2.1 = v.2.1 := by
      rw [← hroomw, ← heq, hroomv]
    have hw_pred :
        (sol w && w.2.1 == v.2.1 && (varOcc snap w).contains t) = true := by
      simp [hws, hcw, htq, hww]
    have h2 := two_le_countP (allVars snap)
      (fun u => sol u && u.2.1 == v.2.1 && (varOcc snap u).contains t)
      v w hvA hwA hvw hv_pred hw_pred
    omega
  · intro hsome heq
    have htmem : p.teacher_id ∈ teacherIds snap := teacherDict_isSome_mem hsome
    have hcount := satisfies_teacher hsat p.teacher_id htmem t ht
    have hutv : usesTeacher snap p.teacher_id v = true := by
      simp only [usesTeacher, hbfv, beq_iff_eq]
      exact htidv.symm
    have hutw : usesTeacher snap p.teacher_id w = true := by
      simp only [usesTeacher, hbfw, beq_iff_eq]
      exact htidw.symm.trans heq.symm
    have hv_pred :
        (sol v && usesTeacher snap p.teacher_id v && (varOcc snap v).contains t)
          = true := by
      simp [hvs, hcv, htp, hutv]
    have hw_pred :
        (sol w && usesTeacher snap p.teacher_id w && (varOcc snap w).contains t)
          = true := by
      simp [hws, hcw, htq, hutw]
    have h2 := two_le_countP (allVars snap)
      (fun u => sol u && usesTeacher snap p.teacher_id u && (varOcc snap u).contains t)
      v w hvA hwA hvw hv_pred hw_pred
    omega
  · intro bp bq hbp hbq heq
    rw [hbidv] at hbp
    rw [hbidw] at hbq
    have hbpv : bp = bfv := by
      rw [hbfv] at hbp
      exact (Option.some_injective _ hbp).symm
    have hbqw : bq = bfw := by
      rw [hbfw] at hbq
      exact (Option.some_injective _ hbq).symm
    have hymem : bp.year_id ∈ yearKeys snap (allVars snap) := by
      rw [yearKeys, List.mem_dedup, List.mem_filterMap]
      refine ⟨v, hvA, ?_⟩
      rw [hbp]
      rfl
    have hcount := satisfies_year hsat bp.year_id hymem t ht
    have huyv : usesYear snap bp.year_id v = true := by
      simp only [usesYear, hbfv, beq_iff_eq]
      rw [hbpv]
    have huyw : usesYear snap bp.year_id w = true := by
      simp only [usesYear, hbfw, beq_iff_eq]
      rw [← hbqw]
      exact heq.symm
    have hv_pred :
        (sol v && usesYear snap bp.year_id v && (varOcc snap v).contains t)
          = true := by
      simp [hvs, hcv, htp, huyv]
    have hw_pred :
        (sol w && usesYear snap bp.year_id w && (varOcc snap w).contains t)
          = true := by
      simp [hws, hcw, htq, huyw]
    have h2 := two_le_countP (allVars snap)
      (fun u => sol u && usesYear snap bp.year_id u && (varOcc snap u).contains t)
      v w hvA hwA hvw hv_pred hw_pred
    omega

/-! ## Counterexamples -/

/-- Claim C1 as stated is false: two distinct placements of a success result
share the teacher id `"Tghost"` (which resolves to no teacher record) and
both occupy the grid slot `"Mon_1"`. -/
theorem C1_counterexample :
    solveWith ghostSnap ghostSol = .success
      [⟨"Mon_1", 1, "Sub", "Tghost", "R1", "Y1n", "B1"⟩,
       ⟨"Mon_1", 1, "Sub", "Tghost", "R2", "Y2n", "B2"⟩] ∧
    "Mon_1" ∈ slotIdsOf ghostSnap ∧
    "Mon_1" ∈ placeOcc ghostSnap ⟨"Mon_1", 1, "Sub", "Tghost", "R1", "Y1n", "B1"⟩ ∧
    "Mon_1" ∈ placeOcc ghostSnap ⟨"Mon_1", 1, "Sub", "Tghost", "R2", "Y2n", "B2"⟩ ∧
    Placement.teacher_id ⟨"Mon_1", 1, "Sub", "Tghost", "R1", "Y1n", "B1"⟩ =
      Placement.teacher_id ⟨"Mon_1", 1, "Sub", "Tghost", "R2", "Y2n", "B2"⟩ ∧
    (⟨"Mon_1", 1, "Sub", "Tghost", "R1", "Y1n", "B1"⟩ : Placement) ≠
      ⟨"Mon_1", 1, "Sub", "Tghost", "R2", "Y2n", "B2"⟩ := by
  decide

/-- Claim C2 as stated is false: a success placement of a pinned block
starts at period 2 with duration 2 on a 2-period day
(`2 + 2 - 1 = 3 > 2`), occupying the off-grid identifier `"Mon_3"`. -/
theorem C2_counterexample :
    solveWith pinOverSnap pinOverSol =
      .success [⟨"Mon_2", 2, "Math", "T1", "R1", "Y1n", "B1"⟩] ∧
    findSlot pinOverSnap "Mon_2" = some ⟨"Mon", 2⟩ ∧
    periodsOf pinOverSnap.config = 2 ∧
    placeOcc pinOverSnap ⟨"Mon_2", 2, "Math", "T1", "R1", "Y1n", "B1"⟩ =
      ["Mon_2", "Mon_3"] ∧
    "Mon_3" ∉ slotIdsOf pinOverSnap ∧
    ¬ ((2 : Int) + 2 - 1 ≤ (2 : Int)) := by
  decide

/-- Claim C4 as stated is false: with one room and an empty-domain block
whose teacher id resolves to no record, `solve` raises an `AttributeError`
instead of returning a failure value. -/
theorem C4_counterexample :
    noTeacherSnap.rooms ≠ [] ∧
    noTeacherSnap.blocks.find? (fun blk => (blockVars noTeacherSnap blk).isEmpty) =
      some ⟨"B1", "T9", none, "Y1", "Math", "Y1n", 2⟩ ∧
    solveWith noTeacherSnap (fun _ => false) =
      .thrown "AttributeError: 'NoneType' object has no attribute 'get'" := by
  decide

/-- Claim C5 as stated is false: a subject record carrying `fixed_slot` with
the (present but falsy) value `""` does not yield the singleton `[""]` — the
boundary-checked grid is used instead. -/
theorem C5_counterexample :
    (⟨"B1", "T1", some "S1", "Y1", "Math", "Y1n", 1⟩ : Block) ∈ emptyPinSnap.blocks ∧
    fixedSlotOf emptyPinSnap ⟨"B1", "T1", some "S1", "Y1", "Math", "Y1n", 1⟩ =
      some "" ∧
    validStarts emptyPinSnap ⟨"B1", "T1", some "S1", "Y1", "Math", "Y1n", 1⟩ =
      ["Mon_1"] ∧
    validStarts emptyPinSnap ⟨"B1", "T1", some "S1", "Y1", "Math", "Y1n", 1⟩ ≠
      [""] := by
  decide

/-- Claim C8 is the intended behaviour but the code violates it: on a block
with an unresolvable teacher id whose domain empties through subject
unavailability, `solve` lets an `AttributeError` escape (the unguarded
`teacher_obj.get('name')` in the generic diagnostic branch). -/
theorem C8_exception :
    solveWith noTeacherSubjSnap (fun _ => false) =
      .thrown "AttributeError: 'NoneType' object has no attribute 'get'" := by
  decide

/-- Claim C9 as stated is false for an empty block list: with no rooms and
no blocks, `solve` reaches the solver stage and succeeds with an empty
timetable instead of surfacing the configuration error. -/
theorem C9_counterexample :
    emptySnap.rooms = [] ∧ emptySnap.blocks = [] ∧
    solveWith emptySnap (fun _ => false) = .success [] ∧
    (Outcome.success [] ≠ .failure "No rooms defined in database.") := by
  decide

/-! ## Witnesses -/

theorem C1_witness :
    List.Pairwise (noClash twoSnap)
      [⟨"Mon_1", 1, "Math", "T1", "R1", "C1n", "B1"⟩,
       ⟨"Mon_2", 1, "Math", "T1", "R1", "C2n", "B2"⟩] :=
  C1_mutual_exclusion twoSnap twoSol
    [⟨"Mon_1", 1, "Math", "T1", "R1", "C1n", "B1"⟩,
     ⟨"Mon_2", 1, "Math", "T1", "R1", "C2n", "B2"⟩] (by decide)

theorem C2_witness :
    ∃ sl ∈ slotsOf okSnap,
      slotId sl.day sl.period =
        Placement.slot_id ⟨"Mon_1", 1, "Math", "T1", "R1", "Year 1", "B1"⟩ ∧
      (sl.period : Int) +
          Placement.duration ⟨"Mon_1", 1, "Math", "T1", "R1", "Year 1", "B1"⟩ - 1 ≤
        (periodsOf okSnap.config : Int) :=
  C2_within_day okSnap okSol [⟨"Mon_1", 1, "Math", "T1", "R1", "Year 1", "B1"⟩]
    (by decide) (by decide) ⟨"Mon_1", 1, "Math", "T1", "R1", "Year 1", "B1"⟩
    (by decide) ⟨"B1", "T1", some "S1", "Y1", "Math", "Year 1", 1⟩
    (by decide) (by decide)

theorem C3_witness :
    (prepare_assignments_as_blocks [⟨some "A1", some 4, "S1", "T1", "Y1"⟩]
        [] [] (cfg1 2)).map Block.duration = greedyChunks 3 4 ∧
    ((prepare_assignments_as_blocks [⟨some "A1", some 4, "S1", "T1", "Y1"⟩]
        [] [] (cfg1 2)).map Block.duration).sum = 4 ∧
    (∀ d ∈ (prepare_assignments_as_blocks [⟨some "A1", some 4, "S1", "T1", "Y1"⟩]
        [] [] (cfg1 2)).map Block.duration, 1 ≤ d ∧ d ≤ 3) ∧
    (prepare_assignments_as_blocks [⟨some "A1", some 4, "S1", "T1", "Y1"⟩]
        [] [] (cfg1 2)).map Block.block_id =
      (List.range (prepare_assignments_as_blocks
        [⟨some "A1", some 4, "S1", "T1", "Y1"⟩] [] [] (cfg1 2)).length).map
        (fun i => "A1" ++ "_p" ++ toString (i + 1)) :=
  C3_block_expansion ⟨some "A1", some 4, "S1", "T1", "Y1"⟩ [] [] (cfg1 2)
    "A1" 4 3 _ rfl rfl (by decide) rfl (by decide) rfl

theorem C4_witness :
    solveWith pinClashSnap (fun _ => false) =
      .failure (forcedMsg ⟨"B1", "T1", some "S1", "Y1", "Math", "Y1n", 1⟩ "Mon_2") ∧
    solveWith overBlockSnap (fun _ => false) =
      .failure (genericMsg ⟨"B1", "T1", none, "Y1", "Math", "Y1n", 1⟩ "Alan") :=
  ⟨(C4_empty_domain pinClashSnap ⟨"B1", "T1", some "S1", "Y1", "Math", "Y1n", 1⟩
      (by decide) (by decide)).1 (by decide) (fun _ => false),
   (C4_empty_domain overBlockSnap ⟨"B1", "T1", none, "Y1", "Math", "Y1n", 1⟩
      (by decide) (by decide)).2 (by decide) ⟨"T1", "Alan", ["Mon_1"]⟩
      (by decide) (fun _ => false)⟩

theorem C5_witness :
    validStarts pinOkSnap ⟨"B1", "T1", some "S1", "Y1", "Math", "Y1n", 1⟩ =
      ["Mon_2"] ∧
    Placement.slot_id ⟨"Mon_2", 1, "Math", "T1", "R1", "Y1n", "B1"⟩ = "Mon_2" :=
  ⟨(C5_pin_honoured pinOkSnap ⟨"B1", "T1", some "S1", "Y1", "Math", "Y1n", 1⟩
      ⟨"S1", "Math", some "Mon_2", []⟩ "Mon_2" (by decide) (by decide) (by decide)
      rfl (by decide)).1,
   (C5_pin_honoured pinOkSnap ⟨"B1", "T1", some "S1", "Y1", "Math", "Y1n", 1⟩
      ⟨"S1", "Math", some "Mon_2", []⟩ "Mon_2" (by decide) (by decide) (by decide)
      rfl (by decide)).2 pinOkSol [⟨"Mon_2", 1, "Math", "T1", "R1", "Y1n", "B1"⟩]
      ⟨"Mon_2", 1, "Math", "T1", "R1", "Y1n", "B1"⟩ (by decide) (by decide) rfl⟩

theorem C6_witness :
    isAvailable pinOkSnap ⟨"B1", "T1", some "S1", "Y1", "Math", "Y1n", 1⟩ "Mon_2"
        = true ↔
      ∃ sl, findSlot pinOkSnap "Mon_2" = some sl ∧
        ∀ t, teacherDict pinOkSnap "T1" = some t →
          ∀ o ∈ occupiedIds sl 1, o ∉ t.unavailable_slots :=
  (C6_subject_check pinOkSnap ⟨"B1", "T1", some "S1", "Y1", "Math", "Y1n", 1⟩
    ⟨"S1", "Math", some "Mon_2", []⟩ "Mon_2" (by decide)).1 (by decide)

theorem C7_witness :
    "Mon_1" ∉ Teacher.unavailable_slots ⟨"T1", "Alice", []⟩ :=
  C7_teacher_respected okSnap okSol
    [⟨"Mon_1", 1, "Math", "T1", "R1", "Year 1", "B1"⟩] (by decide) (by decide)
    ⟨"Mon_1", 1, "Math", "T1", "R1", "Year 1", "B1"⟩ (by decide)
    "Mon_1" (by decide) ⟨"T1", "Alice", []⟩ (by decide)

theorem C9_witness :
    solveWith noRoomSnap (fun _ => false) =
      .failure "No rooms defined in database." :=
  C9_no_rooms noRoomSnap (fun _ => false) (by decide) rfl

theorem C10_witness :
    (prepare_assignments_as_blocks [⟨some "A1", none, "S1", "T1", "Y1"⟩]
        [] [] (cfg1 2) ≠ [] ∧
      ((prepare_assignments_as_blocks [⟨some "A1", none, "S1", "T1", "Y1"⟩]
          [] [] (cfg1 2)).map Block.duration).sum = 2) ∧
    prepare_assignments_as_blocks [⟨some "A2", some 0, "S1", "T1", "Y1"⟩]
        [] [] (cfg1 2) = [] :=
  C10_default_sks ⟨some "A1", none, "S1", "T1", "Y1"⟩
    ⟨some "A2", some 0, "S1", "T1", "Y1"⟩ [] [] (cfg1 2) 3 0
    rfl rfl (by decide) rfl (by decide)

end Sched
